import Mathlib

/-!
Verification of the conversational retrieval core of the rag_llamaindex
repository (two Streamlit apps: sc_app/app.py and sc_bedrock_app/app.py).

The apps share the same engine-construction logic (`create_chat_engine`),
index construction (`create_index`), document loading (`load_documents`)
and chat turn handling (`main`).  The embedding below follows
sc_app/app.py for the engine and index functions (the Bedrock variant is
identical up to the names of the provider constructors) and models the
Bedrock variant of `load_documents`, which carries the explicit
existence / emptiness checks.  Components of the external llama_index
library that the specification treats as part of the system (the chat
memory buffer eviction and the context chat engine respond loop) are
modelled from the specification and marked as such.
-/

/-- A conversation role: user or assistant. -/
inductive Role where
  | user
  | assistant
deriving DecidableEq, Repr

/-- A conversation turn: role plus text. -/
structure Turn where
  role : Role
  text : String
deriving DecidableEq, Repr

/-- A raw document: text plus source identifier. -/
structure Document where
  text : String
  source : String
deriving DecidableEq, Repr

/-- A completion provider handle: model identifier and sampling temperature
(OpenAI gpt-4o in sc_app, BedrockConverse nova-pro in sc_bedrock_app). -/
structure LLM where
  model : String
  temperature : ℚ
deriving DecidableEq, Repr

/-- An embedding provider handle. -/
inductive EmbedModel where
  | openaiEmbedding
deriving DecidableEq, Repr

/-- Process-wide llama_index Settings object: `Settings.llm` and
`Settings.embed_model` global defaults, `none` when never assigned. -/
structure Settings where
  llm : Option LLM
  embed_model : Option EmbedModel
deriving DecidableEq, Repr

/-- A vector index: the documents it was built from, and the global
provider settings in force at the moment `VectorStoreIndex.from_documents`
ran (the build picks up whatever `Settings` holds at that point). -/
structure VectorStoreIndex where
  documents : List Document
  build_llm : Option LLM
  build_embed : Option EmbedModel
deriving DecidableEq, Repr

/-- A chat memory buffer handle as configured by
`ChatMemoryBuffer.from_defaults(token_limit=...)`. -/
structure ChatMemoryBuffer where
  token_limit : Nat
deriving DecidableEq, Repr

/-- The configuration dictionary passed to `create_chat_engine`.
Each key may be absent (the Python code reads them with `config.get`). -/
structure Config where
  token_limit : Option Nat
  temperature : Option ℚ
  system_prompt : Option String
  context_prompt : Option String
deriving DecidableEq, Repr

/-- A configuration with no keys set. -/
def emptyConfig : Config := ⟨none, none, none, none⟩

/-- The fixed default prompt string used for both the context-mode
system prompt and the condense_plus_context-mode context prompt. -/
def defaultPrompt : String :=
  "You are familiar with biographies of Albert and Marie, as well as their professional and social friendships and relationships."

/-- The chat engine object returned by `create_chat_engine`: each variant
records exactly the arguments the Python code passes to
`index.as_chat_engine`. `default` is the bare `index.as_chat_engine()`
call of the trailing `else` branch. -/
inductive ChatEngine where
  | condense_question (index : VectorStoreIndex) (verbose : Bool)
  | context (index : VectorStoreIndex) (memory : ChatMemoryBuffer)
      (system_prompt : String)
  | condense_plus_context (index : VectorStoreIndex)
      (memory : ChatMemoryBuffer) (llm : LLM) (context_prompt : String)
      (verbose : Bool)
  | default (index : VectorStoreIndex)
deriving DecidableEq, Repr

/-- The explicit memory buffer of an engine, if it has one. -/
def ChatEngine.memory : ChatEngine → Option ChatMemoryBuffer
  | .context _ m _ => some m
  | .condense_plus_context _ m _ _ _ => some m
  | _ => none

/-- The temperature of the per-engine completion provider, if the engine
carries its own (only condense_plus_context builds a custom llm). -/
def ChatEngine.llmTemperature : ChatEngine → Option ℚ
  | .condense_plus_context _ _ l _ _ => some l.temperature
  | _ => none

namespace ScApp

/-- sc_app/app.py `create_chat_engine(index, engine_type, config)`:
returns None when index is None; otherwise dispatches on the engine type
string, reading options from `config` with `config.get` defaults, and
falls through to a bare `index.as_chat_engine()` for any unrecognized
engine type.  No validation is performed anywhere. -/
def create_chat_engine (index : Option VectorStoreIndex)
    (engine_type : String) (config : Config) : Option ChatEngine :=
  match index with
  | none => none
  | some idx =>
    if engine_type = "condense_question" then
      some (.condense_question idx true)
    else if engine_type = "context" then
      some (.context idx ⟨config.token_limit.getD 3900⟩
        (config.system_prompt.getD defaultPrompt))
    else if engine_type = "condense_plus_context" then
      some (.condense_plus_context idx ⟨config.token_limit.getD 3900⟩
        ⟨"gpt-4o", config.temperature.getD (3/10)⟩
        (config.context_prompt.getD defaultPrompt) true)
    else
      some (.default idx)

/-- sc_app/app.py `create_index(documents, temperature)`: returns None
for None documents; otherwise builds an OpenAI llm at the given
temperature and an OpenAI embedding model, assigns both into the
process-wide `Settings` (overwriting whatever was there), and only then
builds the `VectorStoreIndex`, which therefore records the freshly
assigned providers.  The ambient `Settings` value is threaded explicitly:
the function takes the settings before the call and returns the settings
after it together with the optional index. -/
def create_index (s : Settings) (documents : Option (List Document))
    (temperature : ℚ) : Settings × Option VectorStoreIndex :=
  match documents with
  | none => (s, none)
  | some docs =>
    let llm : LLM := ⟨"gpt-4o", temperature⟩
    let em : EmbedModel := .openaiEmbedding
    let s2 : Settings := ⟨some llm, some em⟩
    (s2, some ⟨docs, s2.llm, s2.embed_model⟩)

end ScApp

/-- Total token count of a buffer under a token-counting function `tc`. -/
def totalTokens (tc : Turn → Nat) (b : List Turn) : Nat :=
  (b.map tc).sum

/-- Modelled from the spec: the eviction step of the Memory Buffer
(the eviction logic lives in the external llama_index ChatMemoryBuffer,
not in this repository).  Spec section 3: when appending a turn of cost
`incoming` would push the total over the budget `limit`, oldest turns are
evicted first (FIFO) until the incoming turn fits, evicting to emptiness
when even that does not suffice. -/
def evict (tc : Turn → Nat) (limit incoming : Nat) :
    List Turn → List Turn
  | [] => []
  | t :: rest =>
    if limit < totalTokens tc (t :: rest) + incoming then
      evict tc limit incoming rest
    else t :: rest

/-- Modelled from the spec: `append(turn)` of the Memory Buffer — evict
oldest turns until the new turn fits, then append it (never dropping the
new turn itself).  Buffers are ordered oldest first. -/
def appendTurn (tc : Turn → Nat) (limit : Nat) (b : List Turn)
    (u : Turn) : List Turn :=
  evict tc limit (tc u) b ++ [u]

/-- A retrieved chunk of document text. -/
structure Chunk where
  text : String
deriving DecidableEq, Repr

/-- The observable events of one `respond(utterance)` call: the query
string actually sent to the vector index, the memory contents after the
call, and the returned completion text. -/
structure RespondTrace where
  retrieval_query : String
  memory_after : List Turn
  response : String
deriving DecidableEq, Repr

/-- Modelled from the spec: the context-mode respond protocol (spec
section 4.3; the ContextChatEngine itself lives in the external
llama_index library).  Append the user turn to the memory buffer,
retrieve with the raw utterance (no condensation step exists in this
mode), complete from the system prompt, the retrieved chunks and the
memory contents, append the assistant turn, and return the completion.
`retriever` and `provider` stand for the external vector index and
completion provider. -/
def contextRespond (tc : Turn → Nat) (limit : Nat)
    (retriever : VectorStoreIndex → String → List Chunk)
    (provider : String → List Chunk → List Turn → String)
    (idx : VectorStoreIndex) (system_prompt : String)
    (memory : List Turn) (utterance : String) : RespondTrace :=
  let mem1 := appendTurn tc limit memory ⟨Role.user, utterance⟩
  let query := utterance
  let chunks := retriever idx query
  let completion := provider system_prompt chunks mem1
  let mem2 := appendTurn tc limit mem1 ⟨Role.assistant, completion⟩
  ⟨query, mem2, completion⟩

/-- Modelled from the spec: `SimpleDirectoryReader(path).load_data()`
of the external llama_index library: raises (here: `none`) when the path
does not exist or when no documents are found there, otherwise returns
the nonempty document list.  The filesystem is abstracted as a partial
map from paths to directory contents (`none` = path does not exist). -/
def simpleDirectoryRead (fs : String → Option (List Document))
    (path : String) : Option (List Document) :=
  match fs path with
  | none => none
  | some docs => if docs = [] then none else some docs

namespace ScBedrockApp

/-- sc_bedrock_app/app.py `load_documents(data_path)`: returns None when
the path does not exist (`os.path.exists` guard), reads via
SimpleDirectoryReader inside try/except (an exception yields None), and
returns None when the resulting document list is empty. -/
def load_documents (fs : String → Option (List Document))
    (data_path : String) : Option (List Document) :=
  if (fs data_path).isNone then none
  else
    match simpleDirectoryRead fs data_path with
    | none => none
    | some docs => if docs = [] then none else some docs

end ScBedrockApp

namespace ScApp

/-- sc_app/app.py `load_documents()`: reads the local data directory via
SimpleDirectoryReader inside try/except; an exception yields None and a
successful read is returned as is (no further checks). -/
def load_documents (fs : String → Option (List Document))
    (data_path : String) : Option (List Document) :=
  simpleDirectoryRead fs data_path

end ScApp

/-- A chat transcript message as kept in `st.session_state.messages`:
role string and content string. -/
structure Message where
  role : String
  content : String
deriving DecidableEq, Repr

/-- The chat-turn handler of `main` in both apps: the user message is
appended to the transcript first; then `chat_engine.chat(prompt)` runs
inside try/except — on success its text is appended as the assistant
message, on exception the string "Error generating response: " followed
by the exception text is appended as the assistant message.  The already
appended user message is never removed. `chat` abstracts the engine call,
returning `Except.error e` when the call raises. -/
def handle_turn (chat : String → Except String String)
    (messages : List Message) (prompt : String) : List Message :=
  let ms := messages ++ [⟨"user", prompt⟩]
  match chat prompt with
  | .ok r => ms ++ [⟨"assistant", r⟩]
  | .error e => ms ++ [⟨"assistant", "Error generating response: " ++ e⟩]

/-! ## Helper lemmas for the memory buffer model -/

theorem totalTokens_append (tc : Turn → Nat) (l1 l2 : List Turn) :
    totalTokens tc (l1 ++ l2) = totalTokens tc l1 + totalTokens tc l2 := by
  simp [totalTokens]

theorem evict_bound (tc : Turn → Nat) (limit c : Nat) (b : List Turn) :
    evict tc limit c b = [] ∨
      totalTokens tc (evict tc limit c b) + c ≤ limit := by
  induction b with
  | nil => exact Or.inl rfl
  | cons t rest ih =>
    by_cases h : limit < totalTokens tc (t :: rest) + c
    · simpa [evict, h] using ih
    · right
      simp only [evict, if_neg h]
      omega

theorem evict_suffix (tc : Turn → Nat) (limit c : Nat) (b : List Turn) :
    evict tc limit c b <:+ b := by
  induction b with
  | nil => exact List.nil_suffix
  | cons t rest ih =>
    by_cases h : limit < totalTokens tc (t :: rest) + c
    · simp only [evict, if_pos h]
      exact ih.trans (List.suffix_cons t rest)
    · simp only [evict, if_neg h]
      exact List.suffix_refl _

theorem appendTurn_bound (tc : Turn → Nat) (limit : Nat) (b : List Turn)
    (u : Turn) :
    totalTokens tc (appendTurn tc limit b u) ≤ limit ∨
      (appendTurn tc limit b u = [u] ∧ limit < tc u) := by
  rcases evict_bound tc limit (tc u) b with h | h
  · rcases Nat.lt_or_ge limit (tc u) with hlt | hle
    · exact Or.inr ⟨by simp [appendTurn, h], hlt⟩
    · left
      simp only [appendTurn, h, List.nil_append]
      simpa [totalTokens] using hle
  · left
    rw [appendTurn, totalTokens_append]
    simpa [totalTokens] using h

/-! ## Claim theorems -/

/-- C1 counterexample: `create_chat_engine` with a non-None index and the
unrecognized strategy name "unknown" does construct an engine instance
(the bare default chat engine), rather than returning a configuration
error — the claim as stated is false on the code. -/
theorem unknown_strategy_constructs_engine :
    (ScApp.create_chat_engine (some ⟨[], none, none⟩) "unknown"
        emptyConfig).isSome = true ∧
    ScApp.create_chat_engine (some ⟨[], none, none⟩) "unknown"
        emptyConfig = some (ChatEngine.default ⟨[], none, none⟩) := by
  constructor <;> rfl

/-- C1 (amended): for every strategy name outside the three recognized
values, `create_chat_engine` with a non-None index does not fail; it
falls through to the trailing else branch and returns the default chat
engine `index.as_chat_engine()`.  No ConfigurationError exists in engine
construction. -/
theorem unrecognized_strategy_returns_default (idx : VectorStoreIndex)
    (cfg : Config) (name : String)
    (h1 : name ≠ "condense_question") (h2 : name ≠ "context")
    (h3 : name ≠ "condense_plus_context") :
    ScApp.create_chat_engine (some idx) name cfg =
      some (ChatEngine.default idx) := by
  simp [ScApp.create_chat_engine, h1, h2, h3]

/-- C1 witness: the amended statement at the concrete name "unknown". -/
theorem unrecognized_strategy_returns_default_witness :
    ScApp.create_chat_engine (some ⟨[], none, none⟩) "unknown"
        emptyConfig = some (ChatEngine.default ⟨[], none, none⟩) :=
  unrecognized_strategy_returns_default ⟨[], none, none⟩ emptyConfig
    "unknown" (by decide) (by decide) (by decide)

/-- C2 counterexample: `create_chat_engine` with strategy "context" and
token_limit 500 (below the minimum 1000 the claim requires it to reject)
constructs a context engine whose memory buffer has token_limit 500 — no
configuration error is returned. -/
theorem context_token_limit_500_constructs_engine :
    ScApp.create_chat_engine (some ⟨[], none, none⟩) "context"
        ⟨some 500, none, none, none⟩ =
      some (ChatEngine.context ⟨[], none, none⟩ ⟨500⟩ defaultPrompt) := by
  rfl

/-- C2 (amended): engine construction performs no range validation on
token_limit: for every token_limit outside [1000, 8000], the context
engine is still constructed, with a memory buffer of exactly that limit.
The [1000, 8000] range is enforced only by the UI number-input widget in
`main`, never by `create_chat_engine`. -/
theorem context_engine_no_token_limit_validation (idx : VectorStoreIndex)
    (cfg : Config) (t : Nat) (h : cfg.token_limit = some t)
    (hout : t < 1000 ∨ 8000 < t) :
    ScApp.create_chat_engine (some idx) "context" cfg =
      some (ChatEngine.context idx ⟨t⟩
        (cfg.system_prompt.getD defaultPrompt)) := by
  simp [ScApp.create_chat_engine, h]

/-- C2 witness: the amended statement at token_limit 500. -/
theorem context_engine_no_token_limit_validation_witness :
    ScApp.create_chat_engine (some ⟨[], none, none⟩) "context"
        ⟨some 500, none, none, none⟩ =
      some (ChatEngine.context ⟨[], none, none⟩ ⟨500⟩
        (Option.getD none defaultPrompt)) :=
  context_engine_no_token_limit_validation ⟨[], none, none⟩
    ⟨some 500, none, none, none⟩ 500 rfl (Or.inl (by decide))

/-- C3: for every token counter, budget, buffer state and incoming turn,
appending keeps the retained total within the budget or leaves exactly
the single oversized incoming turn; eviction removes only oldest turns
(the survivors are a suffix of the old buffer, so eviction is FIFO); and
consequently, along every nonempty sequence of appends starting from the
empty buffer, the retained total never exceeds the budget except when the
buffer is exactly the single oversized turn just appended. -/
theorem memory_buffer_budget_fifo (tc : Turn → Nat) (limit : Nat)
    (b : List Turn) (u : Turn) :
    (totalTokens tc (appendTurn tc limit b u) ≤ limit ∨
      (appendTurn tc limit b u = [u] ∧ limit < tc u)) ∧
    evict tc limit (tc u) b <:+ b ∧
    ∀ (us : List Turn) (v : Turn),
      totalTokens tc ((us ++ [v]).foldl (appendTurn tc limit) []) ≤ limit ∨
        ((us ++ [v]).foldl (appendTurn tc limit) [] = [v] ∧
          limit < tc v) := by
  refine ⟨appendTurn_bound tc limit b u, evict_suffix tc limit (tc u) b,
    fun us v => ?_⟩
  rw [List.foldl_append]
  exact appendTurn_bound tc limit (us.foldl (appendTurn tc limit) []) v

/-- C4: in context mode the query sent to the vector index is exactly the
verbatim utterance — the respond protocol has no condensation step, for
every retriever, completion provider, memory state and prompt. -/
theorem context_retrieval_query_verbatim (tc : Turn → Nat) (limit : Nat)
    (retriever : VectorStoreIndex → String → List Chunk)
    (provider : String → List Chunk → List Turn → String)
    (idx : VectorStoreIndex) (sp : String) (memory : List Turn)
    (utterance : String) :
    (contextRespond tc limit retriever provider idx sp memory
        utterance).retrieval_query = utterance := rfl

/-- C5: for every configuration, the condense_plus_context engine is
constructed with its own completion provider (gpt-4o) at the
configuration temperature, defaulting to 3/10 when absent; that is the
temperature the engine completes with; and there exists an index-build
temperature different from it (so the two may differ). -/
theorem cpc_engine_own_temperature (idx : VectorStoreIndex)
    (cfg : Config) :
    ScApp.create_chat_engine (some idx) "condense_plus_context" cfg =
      some (ChatEngine.condense_plus_context idx
        ⟨cfg.token_limit.getD 3900⟩
        ⟨"gpt-4o", cfg.temperature.getD (3/10)⟩
        (cfg.context_prompt.getD defaultPrompt) true) ∧
    ChatEngine.llmTemperature
        (ChatEngine.condense_plus_context idx ⟨cfg.token_limit.getD 3900⟩
          ⟨"gpt-4o", cfg.temperature.getD (3/10)⟩
          (cfg.context_prompt.getD defaultPrompt) true) =
      some (cfg.temperature.getD (3/10)) ∧
    ∃ tb : ℚ, tb ≠ cfg.temperature.getD (3/10) ∧
      (ScApp.create_index ⟨none, none⟩ (some idx.documents) tb).1.llm =
        some ⟨"gpt-4o", tb⟩ := by
  refine ⟨by simp [ScApp.create_chat_engine], rfl,
    cfg.temperature.getD (3/10) + 1, (lt_add_one _).ne', rfl⟩

/-- C6: the condense_question engine is identical for every pair of
configurations (token_limit, temperature and prompts have no influence),
equals `index.as_chat_engine("condense_question", verbose=True)`, and
carries no explicit memory buffer. -/
theorem condense_question_config_independent (idx : VectorStoreIndex)
    (cfg1 cfg2 : Config) :
    ScApp.create_chat_engine (some idx) "condense_question" cfg1 =
      ScApp.create_chat_engine (some idx) "condense_question" cfg2 ∧
    ScApp.create_chat_engine (some idx) "condense_question" cfg1 =
      some (ChatEngine.condense_question idx true) ∧
    ChatEngine.memory (ChatEngine.condense_question idx true) = none := by
  exact ⟨rfl, rfl, rfl⟩

/-- C7: for every filesystem and source path, the document loader
returns an error result (None) when the path does not exist or when the
path yields zero documents — in both the Bedrock variant (explicit
checks) and the sc_app variant (the directory reader raises and the
except branch yields None). -/
theorem load_documents_fails_on_missing_or_empty
    (fs : String → Option (List Document)) (path : String)
    (h : fs path = none ∨ fs path = some []) :
    ScBedrockApp.load_documents fs path = none ∧
    ScApp.load_documents fs path = none := by
  rcases h with h | h <;>
    simp [ScBedrockApp.load_documents, ScApp.load_documents,
      simpleDirectoryRead, h]

/-- C7 witness: the loader fails on a filesystem with no paths. -/
theorem load_documents_fails_on_missing_or_empty_witness :
    ScBedrockApp.load_documents (fun _ => none) "data" = none ∧
    ScApp.load_documents (fun _ => none) "data" = none :=
  load_documents_fails_on_missing_or_empty (fun _ => none) "data"
    (Or.inl rfl)

/-- C8: when the completion call raises, the turn handler appends a
structured non-empty assistant message carrying the error text, and the
user turn appended for the request stays in the transcript — no
rollback, no silent empty response. -/
theorem provider_error_surfaced_state_kept
    (chat : String → Except String String) (messages : List Message)
    (prompt e : String) (h : chat prompt = .error e) :
    handle_turn chat messages prompt =
      messages ++ [⟨"user", prompt⟩,
        ⟨"assistant", "Error generating response: " ++ e⟩] ∧
    Message.mk "user" prompt ∈ handle_turn chat messages prompt ∧
    0 < ("Error generating response: " ++ e).length := by
  have h1 : handle_turn chat messages prompt =
      messages ++ [⟨"user", prompt⟩,
        ⟨"assistant", "Error generating response: " ++ e⟩] := by
    simp [handle_turn, h]
  have h2 : 0 < ("Error generating response: " : String).length := by
    decide
  refine ⟨h1, ?_, ?_⟩
  · rw [h1]
    simp
  · rw [String.length_append]
    omega

/-- C8 witness: the statement at a concrete failing completion call. -/
theorem provider_error_surfaced_state_kept_witness :
    handle_turn (fun _ => Except.error "boom") [] "hi" =
      [] ++ [⟨"user", "hi"⟩,
        ⟨"assistant", "Error generating response: " ++ "boom"⟩] ∧
    Message.mk "user" "hi" ∈
      handle_turn (fun _ => Except.error "boom") [] "hi" ∧
    0 < ("Error generating response: " ++ "boom").length :=
  provider_error_surfaced_state_kept (fun _ => Except.error "boom") []
    "hi" "boom" rfl

/-- C9: `create_index` overwrites the process-wide Settings with the
providers built for this call (whatever they held before), the index is
built after that assignment so it records the freshly set providers, and
a second build at another temperature overwrites the first settings
again — the two builds clobber each other's global defaults. -/
theorem create_index_sets_global_settings (s : Settings)
    (ds1 ds2 : List Document) (t1 t2 : ℚ) :
    (ScApp.create_index s (some ds1) t1).1 =
      ⟨some ⟨"gpt-4o", t1⟩, some EmbedModel.openaiEmbedding⟩ ∧
    (ScApp.create_index s (some ds1) t1).2 =
      some ⟨ds1, some ⟨"gpt-4o", t1⟩, some EmbedModel.openaiEmbedding⟩ ∧
    (ScApp.create_index (ScApp.create_index s (some ds1) t1).1
        (some ds2) t2).1 =
      ⟨some ⟨"gpt-4o", t2⟩, some EmbedModel.openaiEmbedding⟩ :=
  ⟨rfl, rfl, rfl⟩

/-- C10: engine construction never fails whatever the engine type and
configuration (it always returns some engine for a non-None index), and
absent options are filled with fixed defaults: token_limit 3900,
temperature 3/10, and the same fixed Albert-and-Marie sentence for both
the context system prompt and the condense_plus_context context
prompt. -/
theorem engine_construction_defaults (idx : VectorStoreIndex)
    (et : String) (cfg : Config) :
    (ScApp.create_chat_engine (some idx) et cfg).isSome = true ∧
    ScApp.create_chat_engine (some idx) "context" emptyConfig =
      some (ChatEngine.context idx ⟨3900⟩ defaultPrompt) ∧
    ScApp.create_chat_engine (some idx) "condense_plus_context"
        emptyConfig =
      some (ChatEngine.condense_plus_context idx ⟨3900⟩
        ⟨"gpt-4o", 3/10⟩ defaultPrompt true) := by
  refine ⟨?_, rfl, rfl⟩
  by_cases h1 : et = "condense_question" <;>
    by_cases h2 : et = "context" <;>
      by_cases h3 : et = "condense_plus_context" <;>
        simp [ScApp.create_chat_engine, h1, h2, h3]
